import Mathlib

/-!
Shallow embedding of the `vmi` provisioning pipeline (`src/lib.rs`) and the
CLI entry point (`src/main.rs`).

External effects (HTTP requests against the instance-metadata channel, EC2
API calls, filesystem existence checks, sleeps) are modelled by an
environment `Env` of oracles answering each call, and every function
additionally returns the list of `Event`s it emitted, in order.  The
unbounded device-materialization loop is modelled with explicit fuel: a run
that exhausts its fuel inside the loop yields `none` ("still running"),
and divergence is the statement that every fuel amount yields `none`.

Machine strings coming over HTTP are modelled as byte lists (`List Nat`)
that must decode as UTF-8, mirroring `std::str::from_utf8`.
-/

namespace Vmi

/-- Whether `b` is a UTF-8 continuation byte (`0x80..=0xBF`). -/
def isCont (b : Nat) : Bool := 0x80 ≤ b && b < 0xC0

/-- UTF-8 decoding of a byte list, mirroring the validation performed by
Rust `std::str::from_utf8`: continuation bytes must be `0x80..=0xBF`,
overlong encodings, surrogate code points (`0xD800..=0xDFFF`) and code
points above `0x10FFFF` are rejected. -/
def utf8Decode : List Nat → Option (List Char)
  | [] => some []
  | b :: rest =>
    if b < 0x80 then
      (utf8Decode rest).map (fun cs => Char.ofNat b :: cs)
    else if b < 0xC2 then none
    else if b < 0xE0 then
      match rest with
      | b1 :: rest2 =>
        if isCont b1 then
          (utf8Decode rest2).map (fun cs =>
            Char.ofNat ((b - 0xC0) * 0x40 + (b1 - 0x80)) :: cs)
        else none
      | _ => none
    else if b < 0xF0 then
      match rest with
      | b1 :: b2 :: rest3 =>
        if isCont b1 && isCont b2 && (b != 0xE0 || 0xA0 ≤ b1) && (b != 0xED || b1 < 0xA0) then
          (utf8Decode rest3).map (fun cs =>
            Char.ofNat (((b - 0xE0) * 0x40 + (b1 - 0x80)) * 0x40 + (b2 - 0x80)) :: cs)
        else none
      | _ => none
    else if b < 0xF5 then
      match rest with
      | b1 :: b2 :: b3 :: rest4 =>
        if isCont b1 && isCont b2 && isCont b3 &&
            (b != 0xF0 || 0x90 ≤ b1) && (b != 0xF4 || b1 < 0x90) then
          (utf8Decode rest4).map (fun cs =>
            Char.ofNat ((((b - 0xF0) * 0x40 + (b1 - 0x80)) * 0x40 + (b2 - 0x80)) * 0x40
              + (b3 - 0x80)) :: cs)
        else none
      | _ => none
    else none

/-- `std::str::from_utf8(&body_bytes)` followed by `.into()`: a string when
the bytes are valid UTF-8, otherwise a failure. -/
def strOfBytes? (bs : List Nat) : Option String :=
  (utf8Decode bs).map fun cs => String.mk cs

/-! ## The metadata channel (`src/lib.rs` lines 10-49) -/

/-- An HTTP request against the instance-metadata channel, as built by
`Request::builder()`: a method, a URI and a header list. -/
structure MetaRequest where
  method : String
  uri : String
  headers : List (String × String)
  deriving DecidableEq, Repr

/-- An HTTP response: status code and raw body bytes. -/
structure HttpResponse where
  status : Nat
  body : List Nat
  deriving DecidableEq, Repr

/-- The transport's behaviour for one request: how long `client.request`
takes (milliseconds) and what it produces (`Except` a connection error). -/
structure HttpResult where
  latencyMs : Nat
  outcome : Except String HttpResponse

/-- A transport: the environment's answer to each metadata-channel request. -/
def Transport := MetaRequest → HttpResult

/-- Errors raised by `send`. -/
inductive SendError where
  | timeoutExpired
  | connectionFailed (msg : String)
  | badStatus (status : Nat)
  | invalidUtf8
  deriving DecidableEq, Repr

/-- `StatusCode::is_success()`: the 2xx range. -/
def statusIsSuccess (s : Nat) : Bool := 200 ≤ s && s < 300

/-- The per-call timeout of `send`: `timeout(Duration::from_secs(3), ...)`. -/
def SEND_TIMEOUT_MS : Nat := 3000

/-- `send` (`src/lib.rs` lines 31-38): issue the request under a 3-second
timeout, require a success status, and decode the body as UTF-8 text. -/
def send (transport : Transport) (req : MetaRequest) : Except SendError String :=
  let r := transport req
  if SEND_TIMEOUT_MS ≤ r.latencyMs then
    .error .timeoutExpired
  else
    match r.outcome with
    | .error m => .error (.connectionFailed m)
    | .ok resp =>
      if statusIsSuccess resp.status then
        match strOfBytes? resp.body with
        | some s => .ok s
        | none => .error .invalidUtf8
      else
        .error (.badStatus resp.status)

def AWS_TOKEN_API_URL : String := "http://169.254.169.254/latest/api/token"
def AWS_INSTANCE_ID_URL : String := "http://169.254.169.254/latest/meta-data/instance-id"
def AWS_INSTANCE_AVAILABILITY_ZONE : String :=
  "http://169.254.169.254/latest/meta-data/placement/availability-zone"

/-- The request built by `get_ec2_token`: a PUT to the token endpoint
carrying the requested TTL (21600 seconds) in a dedicated header. -/
def tokenRequest : MetaRequest :=
  { method := "PUT"
  , uri := AWS_TOKEN_API_URL
  , headers := [("X-aws-ec2-metadata-token-ttl-seconds", "21600")] }

/-- The request built by `get_ec2_value`: a GET to `url` presenting the
token in the `X-aws-ec2-metadata-token` header. -/
def valueRequest (url token : String) : MetaRequest :=
  { method := "GET"
  , uri := url
  , headers := [("X-aws-ec2-metadata-token", token)] }

/-- Observable events of a pipeline run, in program order. -/
inductive Event where
  /-- `std::path::Path::new(path).exists()` returning `result`. -/
  | fsExists (path : String) (result : Bool)
  /-- One metadata-channel HTTP call (`send`). -/
  | http (req : MetaRequest)
  /-- `describe_images().image_ids(amiId).send()`. -/
  | describeImages (amiId : String)
  /-- `create_volume().availability_zone(zone).snapshot_id(snapshotId).send()`. -/
  | createVolume (zone snapshotId : String)
  /-- `wait_until_volume_available().volume_ids(volumeId).wait(maxWaitSecs)`. -/
  | waitVolumeAvailable (volumeId : String) (maxWaitSecs : Nat)
  /-- `attach_volume().device(device).volume_id(volumeId).instance_id(instanceId).send()`. -/
  | attachVolume (device volumeId instanceId : String)
  /-- `tokio::time::sleep(Duration::from_millis(ms))`. -/
  | sleepMs (ms : Nat)
  deriving DecidableEq, Repr

instance : Inhabited Event := ⟨Event.sleepMs 0⟩

/-- `get_ec2_token` (`src/lib.rs` lines 10-19): one `send` of the token
request; the result and the emitted events. -/
def get_ec2_token (transport : Transport) : Except SendError String × List Event :=
  (send transport tokenRequest, [Event.http tokenRequest])

/-- `get_ec2_value` (`src/lib.rs` lines 21-29): one `send` of a value
request presenting `token`. -/
def get_ec2_value (transport : Transport) (url token : String) :
    Except SendError String × List Event :=
  (send transport (valueRequest url token), [Event.http (valueRequest url token)])

/-- `get_ec2_instance_id_and_zone` (`src/lib.rs` lines 40-49): one token
acquisition, then a read of the instance id, then a read of the
availability zone, both presenting the same token. -/
def get_ec2_instance_id_and_zone (transport : Transport) :
    Except SendError (String × String) × List Event :=
  match get_ec2_token transport with
  | (.error e, tr) => (.error e, tr)
  | (.ok token, tr) =>
    match get_ec2_value transport AWS_INSTANCE_ID_URL token with
    | (.error e, tr2) => (.error e, tr ++ tr2)
    | (.ok id, tr2) =>
      match get_ec2_value transport AWS_INSTANCE_AVAILABILITY_ZONE token with
      | (.error e, tr3) => (.error e, tr ++ tr2 ++ tr3)
      | (.ok zone, tr3) => (.ok (id, zone), tr ++ tr2 ++ tr3)

/-! ## The EC2 SDK surface used by the pipeline (`src/lib.rs` lines 52-134) -/

/-- `aws_sdk_ec2::types::EbsBlockDevice`, restricted to the field read. -/
structure Ebs where
  snapshot_id : Option String
  deriving DecidableEq, Repr

/-- `aws_sdk_ec2::types::BlockDeviceMapping`, restricted to the field read. -/
structure BlockDeviceMapping where
  ebs : Option Ebs
  deriving DecidableEq, Repr

/-- `aws_sdk_ec2::types::Image`, restricted to the field read. -/
structure Image where
  block_device_mappings : Option (List BlockDeviceMapping)
  deriving DecidableEq, Repr

/-- `DescribeImagesOutput`, restricted to the field read. -/
structure DescribeImagesOutput where
  images : Option (List Image)
  deriving DecidableEq, Repr

/-- `CreateVolumeOutput`, restricted to the field read. -/
structure CreateVolumeOutput where
  volume_id : Option String
  deriving DecidableEq, Repr

/-- Outcome of `wait_until_volume_available(...).wait(max_wait)`: either the
volume became available in time, or the waiter failed — in particular by
exceeding `max_wait`. -/
inductive WaitError where
  | exceededMaxWait
  | waiterFailed (msg : String)
  deriving DecidableEq, Repr

/-- The environment a pipeline run executes against: oracles answering each
external call.  `fs k` is the answer of the `k`-th filesystem existence
check the run performs on the device path (`k = 0` is the precondition
check at `Start`; the device-wait loop performs checks `1, 2, ...`). -/
structure Env where
  fs : Nat → Bool
  meta : Transport
  describeImages : String → Except String DescribeImagesOutput
  createVolume : String → String → Except String CreateVolumeOutput
  waitVolume : String → Nat → Except WaitError Unit
  attachVolume : String → String → String → Except String Unit

/-- Terminal failures of a pipeline run.  Rust-level `?` propagations and
`expect`/`ensure!` panics are folded into one error type; which
constructor applies records which source line failed. -/
inductive RunError where
  /-- `ensure!(!Path::new(&device_path).exists(), ...)`, line 55. -/
  | preconditionViolation (path : String)
  /-- `?` on an EC2 SDK call (describe_images / create_volume / attach_volume). -/
  | sdkFailed (msg : String)
  /-- `.expect("Failed to find snapshot ID for the given AMI ID")`, line 80. -/
  | noSnapshotFound
  /-- `?` on a metadata-channel call inside `get_ec2_instance_id_and_zone`. -/
  | metadataFailed (e : SendError)
  /-- `.expect("Failed to create volume")`, line 96. -/
  | noVolumeIdReturned
  /-- `?` on `wait_until_volume_available(...).wait(...)`, line 108. -/
  | volumeWaitFailed (e : WaitError)
  deriving DecidableEq, Repr

/-- Snapshot resolution (`src/lib.rs` lines 69-80): from the catalog
answer, take the first image, its block-device mappings, the first
mapping, its `ebs`, and the snapshot id — `None` anywhere fails. -/
def resolveSnapshotId (out : DescribeImagesOutput) : Option String :=
  ((out.images.getD []).get? 0).bind fun image =>
    image.block_device_mappings.bind fun mappings =>
      (mappings.get? 0).bind fun mapping =>
        mapping.ebs.bind fun ebs => ebs.snapshot_id

/-- The polling interval of the device-materialization loop:
`tokio::time::sleep(Duration::from_millis(500))`. -/
def DEVICE_POLL_MS : Nat := 500

/-- The deadline handed to the volume waiter:
`Duration::from_secs(60)`. -/
def MAX_WAIT_SECS : Nat := 60

/-- The device-materialization loop (`src/lib.rs` lines 128-131):
`while !Path::new(&device_path).exists() { sleep(500ms) }`, with `fs k`
answering the `k`-th existence check of the run; checks start at index
`k`.  `fuel` bounds how many loop iterations are unrolled: `none` means
the loop was still running when the fuel ran out. -/
def deviceWait (fs : Nat → Bool) (path : String) (k : Nat) :
    Nat → Option Unit × List Event
  | 0 => (none, [])
  | fuel + 1 =>
    if fs k then
      (some (), [Event.fsExists path true])
    else
      let rest := deviceWait fs path (k + 1) fuel
      (rest.1, Event.fsExists path false :: Event.sleepMs DEVICE_POLL_MS :: rest.2)

/-- `load_ami_to_device` (`src/lib.rs` lines 52-134).  Returns
`(some result, trace)` when the run terminated within `fuel` unrollings of
the device-wait loop, and `(none, trace)` when it was still inside that
loop.  Client construction (`aws_config::load_from_env`) is configuration
glue and emits no event. -/
def load_ami_to_device (env : Env) (fuel : Nat) (ami_id device_path : String) :
    Option (Except RunError Unit) × List Event :=
  if env.fs 0 then
    (some (.error (.preconditionViolation device_path)), [Event.fsExists device_path true])
  else
    let pre0 := [Event.fsExists device_path false, Event.describeImages ami_id]
    match env.describeImages ami_id with
    | .error m => (some (.error (.sdkFailed m)), pre0)
    | .ok out =>
      match resolveSnapshotId out with
      | none => (some (.error .noSnapshotFound), pre0)
      | some snapshot_id =>
        match get_ec2_instance_id_and_zone env.meta with
        | (.error e, mtr) => (some (.error (.metadataFailed e)), pre0 ++ mtr)
        | (.ok (ec2_host_instance_id, zone), mtr) =>
          let pre1 := pre0 ++ mtr ++ [Event.createVolume zone snapshot_id]
          match env.createVolume zone snapshot_id with
          | .error m => (some (.error (.sdkFailed m)), pre1)
          | .ok cvo =>
            match cvo.volume_id with
            | none => (some (.error .noVolumeIdReturned), pre1)
            | some volume_id =>
              let pre2 := pre1 ++ [Event.waitVolumeAvailable volume_id MAX_WAIT_SECS]
              match env.waitVolume volume_id MAX_WAIT_SECS with
              | .error e => (some (.error (.volumeWaitFailed e)), pre2)
              | .ok () =>
                let pre3 := pre2 ++
                  [Event.attachVolume device_path volume_id ec2_host_instance_id]
                match env.attachVolume device_path volume_id ec2_host_instance_id with
                | .error m => (some (.error (.sdkFailed m)), pre3)
                | .ok () =>
                  let w := deviceWait env.fs device_path 1 fuel
                  ((w.1).map .ok, pre3 ++ w.2)

/-! ## The CLI entry point (`src/main.rs`) -/

/-- The `Source` value enum of the CLI. -/
inductive Source where
  | ami
  | raw
  deriving DecidableEq, Repr

/-- The `Sink` value enum of the CLI. -/
inductive Sink where
  | device
  deriving DecidableEq, Repr

/-- The parsed `Command` of the CLI. -/
inductive Command where
  | convert (source : Source) (source_id : String) (sink : Sink) (sink_id : String)
  | inspect (source : Source) (source_id : String)
  deriving DecidableEq, Repr

/-- What `main` can do after argument parsing, at the granularity the
claims need: list the S3 buckets, or run the provisioning pipeline. -/
inductive MainAction where
  | listBuckets
  | runLoadAmiToDevice (ami_id device_path : String)
  deriving DecidableEq, Repr

/-- The body of `main` (`src/main.rs` lines 67-105) after argument parsing
and logging setup: it loads the AWS config, lists the S3 buckets and
prints them, and returns — the parsed command (held in `cli.command`) is
never inspected and no other action is taken. -/
def mainDispatch (_cmd : Command) : List MainAction :=
  [MainAction.listBuckets]

/-! ## Event classifiers and order predicates -/

/-- Is this event a metadata-channel HTTP call? -/
def isMetadataCall : Event → Bool
  | .http _ => true
  | _ => false

/-- Is this event the image-catalog query? -/
def isCatalogCall : Event → Bool
  | .describeImages _ => true
  | _ => false

/-- Is this event the create-volume call? -/
def isCreateCall : Event → Bool
  | .createVolume _ _ => true
  | _ => false

/-- Is this event the volume-availability wait? -/
def isWaitCall : Event → Bool
  | .waitVolumeAvailable _ _ => true
  | _ => false

/-- Is this event the attach-volume call? -/
def isAttachCall : Event → Bool
  | .attachVolume _ _ _ => true
  | _ => false

/-- Is this event a filesystem existence check? -/
def isFsCheck : Event → Bool
  | .fsExists _ _ => true
  | _ => false

/-- Every event satisfying `p` occurs strictly before every event
satisfying `q` in the trace `tr`. -/
def allBefore (tr : List Event) (p q : Event → Bool) : Bool :=
  tr.enum.all fun ie =>
    !p ie.2 || tr.enum.all fun jf => !q jf.2 || decide (ie.1 < jf.1)

/-- Is this event the acquisition of a metadata token (a PUT against the
token endpoint)? -/
def isTokenAcquisition : Event → Bool
  | .http r => r.method == "PUT" && r.uri == AWS_TOKEN_API_URL
  | _ => false

/-- An event touches the filesystem only as an existence check on `dp`:
filesystem events must be `fsExists dp _`; every other event (all of them
network calls or sleeps) passes vacuously. -/
def touchesFsOnlyAt (dp : String) : Event → Bool
  | .fsExists p _ => p == dp
  | _ => true

/-- Every filesystem event in the trace is an existence check on `dp`
(the `Event` type records every effect of the embedded code, and the code
contains no filesystem operation other than `Path::new(..).exists()`). -/
def fsEventsOnlyCheck (dp : String) (tr : List Event) : Bool :=
  tr.all (touchesFsOnlyAt dp)

/-- The trace emitted by a device-wait loop that saw `n` failed checks
and then one successful check. -/
def waitTrace (path : String) : Nat → List Event
  | 0 => [Event.fsExists path true]
  | n + 1 => Event.fsExists path false :: Event.sleepMs DEVICE_POLL_MS :: waitTrace path n

/-! ## Concrete environments for witnesses and counterexamples -/

/-- ASCII bytes of a string (all witness strings are ASCII). -/
def bytesOfAscii (s : String) : List Nat := s.data.map Char.toNat

/-- A transport where every call answers promptly with status 200:
the token endpoint returns `"tok"`, the instance-id endpoint `"i-1"`,
every other endpoint `"us-east-1a"`. -/
def transportOk : Transport := fun req =>
  { latencyMs := 10
  , outcome := Except.ok
      { status := 200
      , body :=
          if req.uri = AWS_TOKEN_API_URL then bytesOfAscii "tok"
          else if req.uri = AWS_INSTANCE_ID_URL then bytesOfAscii "i-1"
          else bytesOfAscii "us-east-1a" } }

/-- A catalog answer: one image whose first block-device mapping is backed
by snapshot `"snap-1"`. -/
def describeOutOk : DescribeImagesOutput :=
  { images := some [{ block_device_mappings := some [{ ebs := some { snapshot_id := some "snap-1" } }] }] }

/-- The §8 reference scenario: identity `("i-1", "us-east-1a")`, image
`"ami-1"` backed by `"snap-1"`, create returns `"vol-1"`, wait and attach
succeed, and the device appears after two polling intervals (the
precondition check is check 0; loop checks 1 and 2 fail, check 3
succeeds). -/
def envOk : Env :=
  { fs := fun k => decide (3 ≤ k)
  , meta := transportOk
  , describeImages := fun _ => Except.ok describeOutOk
  , createVolume := fun _ _ => Except.ok { volume_id := some "vol-1" }
  , waitVolume := fun _ _ => Except.ok ()
  , attachVolume := fun _ _ _ => Except.ok () }

/-- The device-appearance schedule of `envOk`: the path exists from the
third check on. -/
def fsW : Nat → Bool := fun k => decide (3 ≤ k)

/-- Like `envOk`, but the device path already exists at run start. -/
def envBusy : Env := { envOk with fs := fun _ => true }

/-- Like `envOk`, but the catalog query matches zero images. -/
def envNoImage : Env :=
  { envOk with describeImages := fun _ => Except.ok { images := some [] } }

/-- Like `envOk`, but create-volume returns no volume id. -/
def envNoVolId : Env :=
  { envOk with createVolume := fun _ _ => Except.ok { volume_id := none } }

/-- Like `envOk`, but the availability wait exceeds its deadline. -/
def envWaitTimeout : Env :=
  { envOk with waitVolume := fun _ _ => Except.error WaitError.exceededMaxWait }

/-- Like `envOk`, but the device path never appears (every existence
check answers false). -/
def envNever : Env := { envOk with fs := fun _ => false }

/-- A transport whose calls take exactly the 3-second timeout. -/
def transportSlow : Transport :=
  fun _ => { latencyMs := 3000, outcome := Except.ok { status := 200, body := [] } }

/-- A transport answering promptly with status 404. -/
def transportDenied : Transport :=
  fun _ => { latencyMs := 10, outcome := Except.ok { status := 404, body := [] } }

/-- A transport answering promptly with status 200 and a body that is not
valid UTF-8. -/
def transportGarbled : Transport :=
  fun _ => { latencyMs := 10, outcome := Except.ok { status := 200, body := [0xFF] } }

deriving instance DecidableEq for Except

/-! ## Helper lemmas -/

theorem meta_trace_ok (t : Transport) (iid zone : String)
    (h : (get_ec2_instance_id_and_zone t).1 = Except.ok (iid, zone)) :
    ∃ token, send t tokenRequest = Except.ok token ∧
      send t (valueRequest AWS_INSTANCE_ID_URL token) = Except.ok iid ∧
      send t (valueRequest AWS_INSTANCE_AVAILABILITY_ZONE token) = Except.ok zone ∧
      (get_ec2_instance_id_and_zone t).2 =
        [Event.http tokenRequest,
         Event.http (valueRequest AWS_INSTANCE_ID_URL token),
         Event.http (valueRequest AWS_INSTANCE_AVAILABILITY_ZONE token)] := by
  unfold get_ec2_instance_id_and_zone get_ec2_token get_ec2_value at h ⊢
  rcases h1 : send t tokenRequest with e | token
  · simp [h1] at h
  · rcases h2 : send t (valueRequest AWS_INSTANCE_ID_URL token) with e | iid2
    · simp [h1, h2] at h
    · rcases h3 : send t (valueRequest AWS_INSTANCE_AVAILABILITY_ZONE token) with e | z2
      · simp [h1, h2, h3] at h
      · simp only [h1, h2, h3] at h ⊢
        simp at h
        exact ⟨token, rfl, h.1 ▸ h2, h.2 ▸ h3, by simp⟩

theorem meta_all_http (t : Transport) :
    ∀ e ∈ (get_ec2_instance_id_and_zone t).2, ∃ r, e = Event.http r := by
  unfold get_ec2_instance_id_and_zone get_ec2_token get_ec2_value
  rcases h1 : send t tokenRequest with e | token
  · simp [h1]
  · rcases h2 : send t (valueRequest AWS_INSTANCE_ID_URL token) with e | iid
    · simp [h1, h2]
    · rcases h3 : send t (valueRequest AWS_INSTANCE_AVAILABILITY_ZONE token) with e | z
      · simp [h1, h2, h3]
      · simp [h1, h2, h3]

theorem deviceWait_some (fs : Nat → Bool) (p : String) :
    ∀ (fuel k : Nat), (deviceWait fs p k fuel).1 = some () →
      ∃ n, fs (k + n) = true ∧ (∀ m, m < n → fs (k + m) = false) ∧
        (deviceWait fs p k fuel).2 = waitTrace p n := by
  intro fuel
  induction fuel with
  | zero => intro k h; simp [deviceWait] at h
  | succ fuel ih =>
    intro k h
    by_cases hk : fs k
    · refine ⟨0, by simpa using hk, by omega, ?_⟩
      simp [deviceWait, hk, waitTrace]
    · have hk' : fs k = false := by simpa using hk
      have h' : (deviceWait fs p (k + 1) fuel).1 = some () := by
        simpa [deviceWait, hk'] using h
      obtain ⟨n, h1, h2, h3⟩ := ih (k + 1) h'
      refine ⟨n + 1, ?_, ?_, ?_⟩
      · rw [(by omega : k + (n + 1) = k + 1 + n)]; exact h1
      · intro m hm
        rcases m with _ | m
        · simpa using hk'
        · rw [(by omega : k + (m + 1) = k + 1 + m)]; exact h2 m (by omega)
      · simp [deviceWait, hk', waitTrace, h3]

theorem deviceWait_never (fs : Nat → Bool) (p : String) (h : ∀ m, fs m = false) :
    ∀ (fuel k : Nat), (deviceWait fs p k fuel).1 = none := by
  intro fuel
  induction fuel with
  | zero => intro k; simp [deviceWait]
  | succ fuel ih => intro k; simp [deviceWait, h k, ih (k + 1)]

theorem deviceWait_events (fs : Nat → Bool) (p : String) :
    ∀ (fuel k : Nat), ∀ e ∈ (deviceWait fs p k fuel).2,
      (∃ b, e = Event.fsExists p b) ∨ e = Event.sleepMs DEVICE_POLL_MS := by
  intro fuel
  induction fuel with
  | zero => intro k; simp [deviceWait]
  | succ fuel ih =>
    intro k e he
    by_cases hk : fs k
    · simp [deviceWait, hk] at he
      exact Or.inl ⟨true, he⟩
    · have hk' : fs k = false := by simpa using hk
      simp [deviceWait, hk'] at he
      rcases he with he | he | he
      · exact Or.inl ⟨false, he⟩
      · exact Or.inr he
      · exact ih (k + 1) e he

theorem waitTrace_events (p : String) :
    ∀ n, ∀ e ∈ waitTrace p n,
      (∃ b, e = Event.fsExists p b) ∨ e = Event.sleepMs DEVICE_POLL_MS := by
  intro n
  induction n with
  | zero => simp [waitTrace]
  | succ n ih =>
    intro e he
    simp [waitTrace] at he
    rcases he with he | he | he
    · exact Or.inl ⟨false, he⟩
    · exact Or.inr he
    · exact ih e he

theorem waitTrace_concat (p : String) :
    ∀ n, ∃ l, waitTrace p n = l ++ [Event.fsExists p true] := by
  intro n
  induction n with
  | zero => exact ⟨[], rfl⟩
  | succ n ih =>
    obtain ⟨l, hl⟩ := ih
    exact ⟨Event.fsExists p false :: Event.sleepMs DEVICE_POLL_MS :: l, by simp [waitTrace, hl]⟩


theorem run_ok_shape (env : Env) (fuel : Nat) (ami dp : String)
    (h : (load_ami_to_device env fuel ami dp).1 = some (Except.ok ())) :
    ∃ out sid token iid zone vid n,
      env.fs 0 = false ∧
      env.describeImages ami = Except.ok out ∧
      resolveSnapshotId out = some sid ∧
      send env.meta tokenRequest = Except.ok token ∧
      (get_ec2_instance_id_and_zone env.meta).1 = Except.ok (iid, zone) ∧
      env.createVolume zone sid = Except.ok { volume_id := some vid } ∧
      env.waitVolume vid MAX_WAIT_SECS = Except.ok () ∧
      env.attachVolume dp vid iid = Except.ok () ∧
      env.fs (1 + n) = true ∧ (∀ m, m < n → env.fs (1 + m) = false) ∧
      (load_ami_to_device env fuel ami dp).2 =
        Event.fsExists dp false :: Event.describeImages ami ::
          Event.http tokenRequest ::
          Event.http (valueRequest AWS_INSTANCE_ID_URL token) ::
          Event.http (valueRequest AWS_INSTANCE_AVAILABILITY_ZONE token) ::
          Event.createVolume zone sid ::
          Event.waitVolumeAvailable vid MAX_WAIT_SECS ::
          Event.attachVolume dp vid iid :: waitTrace dp n := by
  by_cases h0 : env.fs 0
  · simp [load_ami_to_device, h0] at h
  · have h0' : env.fs 0 = false := by simpa using h0
    rcases hdi : env.describeImages ami with m | out
    · simp [load_ami_to_device, h0', hdi] at h
    · rcases hres : resolveSnapshotId out with _ | sid
      · simp [load_ami_to_device, h0', hdi, hres] at h
      · rcases hm : get_ec2_instance_id_and_zone env.meta with ⟨mres, mtr⟩
        rcases mres with e | ⟨iid, zone⟩
        · simp [load_ami_to_device, h0', hdi, hres, hm] at h
        · rcases hcv : env.createVolume zone sid with m | cvo
          · simp [load_ami_to_device, h0', hdi, hres, hm, hcv] at h
          · rcases cvo with ⟨_ | vid⟩
            · simp [load_ami_to_device, h0', hdi, hres, hm, hcv] at h
            · rcases hw : env.waitVolume vid MAX_WAIT_SECS with e | u
              · simp [load_ami_to_device, h0', hdi, hres, hm, hcv, hw] at h
              · rcases u
                rcases ha : env.attachVolume dp vid iid with m | u
                · simp [load_ami_to_device, h0', hdi, hres, hm, hcv, hw, ha] at h
                · rcases u
                  have hd : (deviceWait env.fs dp 1 fuel).1 = some () := by
                    have := h
                    simp [load_ami_to_device, h0', hdi, hres, hm, hcv, hw, ha] at this
                    rcases hdw : (deviceWait env.fs dp 1 fuel).1 with _ | u
                    · rw [hdw] at this; simp at this
                    · rcases u; rfl
                  obtain ⟨n, hn1, hn2, hn3⟩ := deviceWait_some env.fs dp fuel 1 hd
                  have hmok : (get_ec2_instance_id_and_zone env.meta).1 = Except.ok (iid, zone) := by
                    rw [hm]
                  obtain ⟨token, ht1, ht2, ht3, ht4⟩ := meta_trace_ok env.meta iid zone hmok
                  refine ⟨out, sid, token, iid, zone, vid, n, h0', rfl, hres, ht1, rfl, hcv, hw, ha,
                    hn1, hn2, ?_⟩
                  have hmtr : mtr =
                      [Event.http tokenRequest,
                       Event.http (valueRequest AWS_INSTANCE_ID_URL token),
                       Event.http (valueRequest AWS_INSTANCE_AVAILABILITY_ZONE token)] := by
                    rw [hm] at ht4; exact ht4
                  simp [load_ami_to_device, h0', hdi, hres, hm, hcv, hw, ha, hmtr, hn3]


/-! ## More helper lemmas -/

theorem meta_all_fsOnly (dp : String) (t : Transport) :
    (get_ec2_instance_id_and_zone t).2.all (touchesFsOnlyAt dp) = true := by
  rw [List.all_eq_true]
  intro e he
  obtain ⟨r, hr⟩ := meta_all_http t e he
  simp [hr, touchesFsOnlyAt]

theorem deviceWait_all_fsOnly (dp : String) (fs : Nat → Bool) (fuel k : Nat) :
    ((deviceWait fs dp k fuel).2).all (touchesFsOnlyAt dp) = true := by
  rw [List.all_eq_true]
  intro e he
  rcases deviceWait_events fs dp fuel k e he with ⟨b, hb⟩ | hb
  · simp [hb, touchesFsOnlyAt]
  · simp [hb, touchesFsOnlyAt]

/-! ## Claim theorems -/

/-- C1: the claim says the `convert ami ... device ...` invocation calls
`load_ami_to_device`; in the code, `main` never inspects the parsed
command: for every command it only lists the S3 buckets. -/
theorem C1_convert_never_invokes_pipeline :
    mainDispatch (Command.convert Source.ami "ami-1234" Sink.device "/dev/xvdg") =
      [MainAction.listBuckets] ∧
    ∀ cmd, mainDispatch cmd = [MainAction.listBuckets] :=
  ⟨rfl, fun _ => rfl⟩

/-- C2 (counterexample): a successful run of the pipeline in which the
image-catalog query occurs before identity resolution, refuting the
claimed order (identity resolution first). -/
theorem C2_counterexample_catalog_before_identity :
    (load_ami_to_device envOk 5 "ami-1" "/dev/xvdg").1 = some (Except.ok ()) ∧
    allBefore (load_ami_to_device envOk 5 "ami-1" "/dev/xvdg").2
      isMetadataCall isCatalogCall = false :=
  ⟨rfl, by decide⟩

/-- C2 (amended): for every successful run the external calls occur in
the fixed order: precondition check, image-catalog query (snapshot
resolution), identity resolution (token, instance-id read, zone read),
volume creation, availability wait, attach, device wait. -/
theorem C2_successful_run_call_order (env : Env) (fuel : Nat) (ami dp : String)
    (h : (load_ami_to_device env fuel ami dp).1 = some (Except.ok ())) :
    ∃ token sid iid zone vid n,
      (load_ami_to_device env fuel ami dp).2 =
        Event.fsExists dp false :: Event.describeImages ami ::
          Event.http tokenRequest ::
          Event.http (valueRequest AWS_INSTANCE_ID_URL token) ::
          Event.http (valueRequest AWS_INSTANCE_AVAILABILITY_ZONE token) ::
          Event.createVolume zone sid ::
          Event.waitVolumeAvailable vid MAX_WAIT_SECS ::
          Event.attachVolume dp vid iid :: waitTrace dp n := by
  obtain ⟨out, sid, token, iid, zone, vid, n, _, _, _, _, _, _, _, _, _, _, htr⟩ :=
    run_ok_shape env fuel ami dp h
  exact ⟨token, sid, iid, zone, vid, n, htr⟩

/-- C2 witness: the amended order theorem applied to the reference
scenario environment. -/
theorem C2_successful_run_call_order_witness :
    ∃ token sid iid zone vid n,
      (load_ami_to_device envOk 5 "ami-1" "/dev/xvdg").2 =
        Event.fsExists "/dev/xvdg" false :: Event.describeImages "ami-1" ::
          Event.http tokenRequest ::
          Event.http (valueRequest AWS_INSTANCE_ID_URL token) ::
          Event.http (valueRequest AWS_INSTANCE_AVAILABILITY_ZONE token) ::
          Event.createVolume zone sid ::
          Event.waitVolumeAvailable vid MAX_WAIT_SECS ::
          Event.attachVolume "/dev/xvdg" vid iid :: waitTrace "/dev/xvdg" n :=
  C2_successful_run_call_order envOk 5 "ami-1" "/dev/xvdg" rfl

/-- C3: if the device path already exists at the precondition check, the
run fails with the precondition violation and its trace is the single
existence check — in particular it contains no network call. -/
theorem C3_precondition_fails_fast (env : Env) (fuel : Nat) (ami dp : String)
    (h : env.fs 0 = true) :
    load_ami_to_device env fuel ami dp =
      (some (Except.error (RunError.preconditionViolation dp)),
        [Event.fsExists dp true]) ∧
    ∀ e ∈ (load_ami_to_device env fuel ami dp).2, isFsCheck e = true := by
  refine ⟨by simp [load_ami_to_device, h], ?_⟩
  intro e he
  simp [load_ami_to_device, h] at he
  simp [he, isFsCheck]

/-- C3 witness: the precondition theorem applied to an environment whose
device path already exists. -/
theorem C3_precondition_fails_fast_witness :
    load_ami_to_device envBusy 5 "ami-1" "/dev/xvdg" =
      (some (Except.error (RunError.preconditionViolation "/dev/xvdg")),
        [Event.fsExists "/dev/xvdg" true]) ∧
    ∀ e ∈ (load_ami_to_device envBusy 5 "ami-1" "/dev/xvdg").2, isFsCheck e = true :=
  C3_precondition_fails_fast envBusy 5 "ami-1" "/dev/xvdg" rfl

/-- C4: snapshot resolution succeeds exactly when the catalog answer has a
first image whose block-device-mapping list has a first entry carrying a
snapshot id (the selection is first image, first mapping); and when it
fails the run terminates with the resolution failure having made no
volume-lifecycle call. -/
theorem C4_snapshot_selection :
    (∀ (out : DescribeImagesOutput) (sid : String),
      resolveSnapshotId out = some sid ↔
        ∃ img rest m mrest e,
          out.images = some (img :: rest) ∧
          img.block_device_mappings = some (m :: mrest) ∧
          m.ebs = some e ∧ e.snapshot_id = some sid) ∧
    (∀ (env : Env) (fuel : Nat) (ami dp : String) (out : DescribeImagesOutput),
      env.fs 0 = false → env.describeImages ami = Except.ok out →
      resolveSnapshotId out = none →
      (load_ami_to_device env fuel ami dp).1 =
          some (Except.error RunError.noSnapshotFound) ∧
      ∀ e ∈ (load_ami_to_device env fuel ami dp).2,
        isCreateCall e = false ∧ isWaitCall e = false ∧ isAttachCall e = false) := by
  constructor
  · intro out sid
    constructor
    · intro h
      rcases out with ⟨imgs⟩
      rcases imgs with _ | imgs
      · simp [resolveSnapshotId] at h
      · rcases imgs with _ | ⟨img, rest⟩
        · simp [resolveSnapshotId] at h
        · rcases img with ⟨bdms⟩
          rcases bdms with _ | bdms
          · simp [resolveSnapshotId] at h
          · rcases bdms with _ | ⟨m, mrest⟩
            · simp [resolveSnapshotId] at h
            · rcases m with ⟨eb⟩
              rcases eb with _ | e
              · simp [resolveSnapshotId] at h
              · simp [resolveSnapshotId] at h
                exact ⟨⟨some (⟨some e⟩ :: mrest)⟩, rest, ⟨some e⟩, mrest, e, rfl, rfl, rfl, h⟩
    · rintro ⟨img, rest, m, mrest, e, h1, h2, h3, h4⟩
      simp [resolveSnapshotId, h1, h2, h3, h4]
  · intro env fuel ami dp out h0 hdi hres
    refine ⟨by simp [load_ami_to_device, h0, hdi, hres], ?_⟩
    intro e he
    simp [load_ami_to_device, h0, hdi, hres] at he
    rcases he with he | he <;>
      simp [he, isCreateCall, isWaitCall, isAttachCall]

/-- C4 witness: the selection characterization evaluated on the reference
catalog answer, and the failure branch on a catalog with zero matching
images. -/
theorem C4_snapshot_selection_witness :
    (∃ img rest m mrest e,
      describeOutOk.images = some (img :: rest) ∧
      img.block_device_mappings = some (m :: mrest) ∧
      m.ebs = some e ∧ e.snapshot_id = some "snap-1") ∧
    ((load_ami_to_device envNoImage 5 "ami-1" "/dev/xvdg").1 =
        some (Except.error RunError.noSnapshotFound) ∧
      ∀ e ∈ (load_ami_to_device envNoImage 5 "ami-1" "/dev/xvdg").2,
        isCreateCall e = false ∧ isWaitCall e = false ∧ isAttachCall e = false) :=
  ⟨(C4_snapshot_selection.1 describeOutOk "snap-1").mp rfl,
   C4_snapshot_selection.2 envNoImage 5 "ami-1" "/dev/xvdg" { images := some [] }
     rfl rfl rfl⟩

/-- C5: once a run reaches volume creation, a create answer carrying no
volume id fails the run terminally with no availability wait and no
attach call; and an availability wait exceeding its deadline fails the
run terminally (timeout-classified) with no attach call. -/
theorem C5_provisioning_failures (env : Env) (fuel : Nat) (ami dp : String)
    (out : DescribeImagesOutput) (sid iid zone : String)
    (h0 : env.fs 0 = false) (hdi : env.describeImages ami = Except.ok out)
    (hres : resolveSnapshotId out = some sid)
    (hm : (get_ec2_instance_id_and_zone env.meta).1 = Except.ok (iid, zone)) :
    (env.createVolume zone sid = Except.ok { volume_id := none } →
      (load_ami_to_device env fuel ami dp).1 =
          some (Except.error RunError.noVolumeIdReturned) ∧
      ∀ e ∈ (load_ami_to_device env fuel ami dp).2,
        isWaitCall e = false ∧ isAttachCall e = false) ∧
    (∀ vid, env.createVolume zone sid = Except.ok { volume_id := some vid } →
      env.waitVolume vid MAX_WAIT_SECS = Except.error WaitError.exceededMaxWait →
      (load_ami_to_device env fuel ami dp).1 =
          some (Except.error (RunError.volumeWaitFailed WaitError.exceededMaxWait)) ∧
      ∀ e ∈ (load_ami_to_device env fuel ami dp).2, isAttachCall e = false) := by
  obtain ⟨token, ht1, ht2, ht3, ht4⟩ := meta_trace_ok env.meta iid zone hm
  rcases hmp : get_ec2_instance_id_and_zone env.meta with ⟨mres, mtr⟩
  rw [hmp] at hm ht4
  simp only at hm ht4
  subst hm
  constructor
  · intro hcv
    refine ⟨by simp [load_ami_to_device, h0, hdi, hres, hmp, hcv], ?_⟩
    intro e he
    simp [load_ami_to_device, h0, hdi, hres, hmp, hcv, ht4] at he
    rcases he with he | he | he | he | he | he <;>
      simp [he, isWaitCall, isAttachCall]
  · intro vid hcv hw
    refine ⟨by simp [load_ami_to_device, h0, hdi, hres, hmp, hcv, hw], ?_⟩
    intro e he
    simp [load_ami_to_device, h0, hdi, hres, hmp, hcv, hw, ht4] at he
    rcases he with he | he | he | he | he | he | he <;>
      simp [he, isAttachCall]

/-- C5 witness: the create-without-id branch on `envNoVolId` and the
deadline-exceeded branch on `envWaitTimeout`. -/
theorem C5_provisioning_failures_witness :
    ((load_ami_to_device envNoVolId 5 "ami-1" "/dev/xvdg").1 =
        some (Except.error RunError.noVolumeIdReturned) ∧
      ∀ e ∈ (load_ami_to_device envNoVolId 5 "ami-1" "/dev/xvdg").2,
        isWaitCall e = false ∧ isAttachCall e = false) ∧
    ((load_ami_to_device envWaitTimeout 5 "ami-1" "/dev/xvdg").1 =
        some (Except.error (RunError.volumeWaitFailed WaitError.exceededMaxWait)) ∧
      ∀ e ∈ (load_ami_to_device envWaitTimeout 5 "ami-1" "/dev/xvdg").2,
        isAttachCall e = false) :=
  ⟨(C5_provisioning_failures envNoVolId 5 "ami-1" "/dev/xvdg" describeOutOk
      "snap-1" "i-1" "us-east-1a" rfl rfl rfl (by decide)).1 rfl,
   (C5_provisioning_failures envWaitTimeout 5 "ami-1" "/dev/xvdg" describeOutOk
      "snap-1" "i-1" "us-east-1a" rfl rfl rfl (by decide)).2 "vol-1" rfl rfl⟩

theorem waitTrace_filter_eventless (p : String) (f : Event → Bool)
    (hfs : ∀ q b, f (Event.fsExists q b) = false)
    (hsl : ∀ ms, f (Event.sleepMs ms) = false) :
    ∀ n, (waitTrace p n).filter f = [] := by
  intro n
  induction n with
  | zero => simp [waitTrace, hfs]
  | succ n ih => simp [waitTrace, hfs, hsl, ih]

/-- C6: the device-materialization wait returns exactly at the first
existence check that succeeds, sleeping 500 ms between checks (so every
successful run ends with the device path present), and it has no
deadline: if the path never appears, no amount of fuel makes the loop
return, and no run with an always-absent device path can complete
successfully. -/
theorem C6_device_wait_loop :
    (∀ (fs : Nat → Bool) (p : String) (fuel k : Nat),
      (deviceWait fs p k fuel).1 = some () →
      ∃ n, fs (k + n) = true ∧ (∀ m, m < n → fs (k + m) = false) ∧
        (deviceWait fs p k fuel).2 = waitTrace p n) ∧
    (∀ (fs : Nat → Bool) (p : String) (fuel k ms : Nat),
      Event.sleepMs ms ∈ (deviceWait fs p k fuel).2 → ms = DEVICE_POLL_MS) ∧
    (∀ (fs : Nat → Bool) (p : String) (fuel k : Nat),
      (∀ m, fs m = false) → (deviceWait fs p k fuel).1 = none) ∧
    (∀ (env : Env) (fuel : Nat) (ami dp : String),
      (load_ami_to_device env fuel ami dp).1 = some (Except.ok ()) →
      ∃ l, (load_ami_to_device env fuel ami dp).2 = l ++ [Event.fsExists dp true]) ∧
    (∀ (env : Env) (fuel : Nat) (ami dp : String),
      (∀ m, 1 ≤ m → env.fs m = false) →
      (load_ami_to_device env fuel ami dp).1 ≠ some (Except.ok ())) := by
  refine ⟨deviceWait_some, ?_, ?_, ?_, ?_⟩
  · intro fs p fuel k ms hmem
    rcases deviceWait_events fs p fuel k _ hmem with ⟨b, hb⟩ | hb
    · simp at hb
    · simpa using hb
  · intro fs p fuel k h
    exact deviceWait_never fs p h fuel k
  · intro env fuel ami dp h
    obtain ⟨out, sid, token, iid, zone, vid, n, _, _, _, _, _, _, _, _, _, _, htr⟩ :=
      run_ok_shape env fuel ami dp h
    obtain ⟨l, hl⟩ := waitTrace_concat dp n
    refine ⟨Event.fsExists dp false :: Event.describeImages ami ::
      Event.http tokenRequest ::
      Event.http (valueRequest AWS_INSTANCE_ID_URL token) ::
      Event.http (valueRequest AWS_INSTANCE_AVAILABILITY_ZONE token) ::
      Event.createVolume zone sid ::
      Event.waitVolumeAvailable vid MAX_WAIT_SECS ::
      Event.attachVolume dp vid iid :: l, ?_⟩
    simp [htr, hl]
  · intro env fuel ami dp hnever h
    obtain ⟨out, sid, token, iid, zone, vid, n, _, _, _, _, _, _, _, _, hn1, _, _⟩ :=
      run_ok_shape env fuel ami dp h
    have := hnever (1 + n) (by omega)
    simp [this] at hn1

/-- C6 witness: the loop characterization on a schedule where the path
appears at the third check, and the impossibility of success when the
path never appears. -/
theorem C6_device_wait_loop_witness :
    (∃ n, fsW (1 + n) = true ∧ (∀ m, m < n → fsW (1 + m) = false) ∧
      (deviceWait fsW "/dev/xvdg" 1 5).2 = waitTrace "/dev/xvdg" n) ∧
    (load_ami_to_device envNever 5 "ami-1" "/dev/xvdg").1 ≠ some (Except.ok ()) :=
  ⟨C6_device_wait_loop.1 fsW "/dev/xvdg" 5 1 rfl,
   C6_device_wait_loop.2.2.2.2 envNever 5 "ami-1" "/dev/xvdg" (fun _ _ => rfl)⟩

/-- C7: `send` fails when the transport takes at least the fixed 3-second
timeout, fails carrying the status code on a non-2xx response, fails on a
body that is not valid UTF-8, and is the operation underlying both the
token acquisition and the value reads. -/
theorem C7_send_contract :
    (∀ (t : Transport) (req : MetaRequest),
      SEND_TIMEOUT_MS ≤ (t req).latencyMs →
      send t req = Except.error SendError.timeoutExpired) ∧
    (∀ (t : Transport) (req : MetaRequest) (resp : HttpResponse),
      (t req).latencyMs < SEND_TIMEOUT_MS → (t req).outcome = Except.ok resp →
      statusIsSuccess resp.status = false →
      send t req = Except.error (SendError.badStatus resp.status)) ∧
    (∀ (t : Transport) (req : MetaRequest) (resp : HttpResponse),
      (t req).latencyMs < SEND_TIMEOUT_MS → (t req).outcome = Except.ok resp →
      statusIsSuccess resp.status = true → strOfBytes? resp.body = none →
      send t req = Except.error SendError.invalidUtf8) ∧
    (∀ t : Transport, (get_ec2_token t).1 = send t tokenRequest) ∧
    (∀ (t : Transport) (url token : String),
      (get_ec2_value t url token).1 = send t (valueRequest url token)) := by
  refine ⟨?_, ?_, ?_, fun t => rfl, fun t url token => rfl⟩
  · intro t req h
    simp [send, h]
  · intro t req resp hlt hout hstat
    have hto : ¬ SEND_TIMEOUT_MS ≤ (t req).latencyMs := by omega
    simp [send, hto, hout, hstat]
  · intro t req resp hlt hout hstat hutf
    have hto : ¬ SEND_TIMEOUT_MS ≤ (t req).latencyMs := by omega
    simp [send, hto, hout, hstat, hutf]

/-- C7 witness: the three failure modes of `send` on concrete transports:
a 3-second call, a 404 answer, and a non-UTF-8 body. -/
theorem C7_send_contract_witness :
    send transportSlow tokenRequest = Except.error SendError.timeoutExpired ∧
    send transportDenied tokenRequest = Except.error (SendError.badStatus 404) ∧
    send transportGarbled tokenRequest = Except.error SendError.invalidUtf8 :=
  ⟨C7_send_contract.1 transportSlow tokenRequest (by decide),
   C7_send_contract.2.1 transportDenied tokenRequest
     { status := 404, body := [] } (by decide) rfl (by decide),
   C7_send_contract.2.2.1 transportGarbled tokenRequest
     { status := 200, body := [0xFF] } (by decide) rfl (by decide) rfl⟩

/-- C8: a successful identity resolution consists of exactly one token
acquisition (a PUT carrying the 21600-second TTL header), followed by the
instance-id read and then the availability-zone read, both presenting the
token returned by that acquisition. -/
theorem C8_identity_resolution (t : Transport) (iid zone : String)
    (h : (get_ec2_instance_id_and_zone t).1 = Except.ok (iid, zone)) :
    ∃ token,
      send t tokenRequest = Except.ok token ∧
      send t (valueRequest AWS_INSTANCE_ID_URL token) = Except.ok iid ∧
      send t (valueRequest AWS_INSTANCE_AVAILABILITY_ZONE token) = Except.ok zone ∧
      (get_ec2_instance_id_and_zone t).2 =
        [Event.http tokenRequest,
         Event.http (valueRequest AWS_INSTANCE_ID_URL token),
         Event.http (valueRequest AWS_INSTANCE_AVAILABILITY_ZONE token)] ∧
      (get_ec2_instance_id_and_zone t).2.filter isTokenAcquisition =
        [Event.http tokenRequest] ∧
      tokenRequest.method = "PUT" ∧
      tokenRequest.headers = [("X-aws-ec2-metadata-token-ttl-seconds", "21600")] := by
  obtain ⟨token, h1, h2, h3, h4⟩ := meta_trace_ok t iid zone h
  refine ⟨token, h1, h2, h3, h4, ?_, rfl, rfl⟩
  rw [h4]
  simp [List.filter, isTokenAcquisition, tokenRequest, valueRequest, AWS_TOKEN_API_URL]

/-- C8 witness: identity resolution on the reference transport. -/
theorem C8_identity_resolution_witness :
    ∃ token,
      send transportOk tokenRequest = Except.ok token ∧
      send transportOk (valueRequest AWS_INSTANCE_ID_URL token) = Except.ok "i-1" ∧
      send transportOk (valueRequest AWS_INSTANCE_AVAILABILITY_ZONE token) =
        Except.ok "us-east-1a" ∧
      (get_ec2_instance_id_and_zone transportOk).2 =
        [Event.http tokenRequest,
         Event.http (valueRequest AWS_INSTANCE_ID_URL token),
         Event.http (valueRequest AWS_INSTANCE_AVAILABILITY_ZONE token)] ∧
      (get_ec2_instance_id_and_zone transportOk).2.filter isTokenAcquisition =
        [Event.http tokenRequest] ∧
      tokenRequest.method = "PUT" ∧
      tokenRequest.headers = [("X-aws-ec2-metadata-token-ttl-seconds", "21600")] :=
  C8_identity_resolution transportOk "i-1" "us-east-1a" rfl

/-- C9: a successful run makes exactly one create-volume call and exactly
one attach call, and the attach names exactly the volume id returned by
the create call and the instance id resolved by identity resolution in
the same run. -/
theorem C9_identifier_propagation (env : Env) (fuel : Nat) (ami dp : String)
    (h : (load_ami_to_device env fuel ami dp).1 = some (Except.ok ())) :
    ∃ sid iid zone vid,
      (get_ec2_instance_id_and_zone env.meta).1 = Except.ok (iid, zone) ∧
      env.createVolume zone sid = Except.ok { volume_id := some vid } ∧
      (load_ami_to_device env fuel ami dp).2.filter isCreateCall =
        [Event.createVolume zone sid] ∧
      (load_ami_to_device env fuel ami dp).2.filter isAttachCall =
        [Event.attachVolume dp vid iid] := by
  obtain ⟨out, sid, token, iid, zone, vid, n, _, _, _, _, hmok, hcv, _, _, _, _, htr⟩ :=
    run_ok_shape env fuel ami dp h
  have hwc : (waitTrace dp n).filter isCreateCall = [] :=
    waitTrace_filter_eventless dp isCreateCall (fun _ _ => rfl) (fun _ => rfl) n
  have hwa : (waitTrace dp n).filter isAttachCall = [] :=
    waitTrace_filter_eventless dp isAttachCall (fun _ _ => rfl) (fun _ => rfl) n
  refine ⟨sid, iid, zone, vid, hmok, hcv, ?_, ?_⟩
  · rw [htr]
    simp [List.filter, isCreateCall, hwc]
  · rw [htr]
    simp [List.filter, isAttachCall, hwa]

/-- C9 witness: identifier propagation on the reference scenario. -/
theorem C9_identifier_propagation_witness :
    ∃ sid iid zone vid,
      (get_ec2_instance_id_and_zone envOk.meta).1 = Except.ok (iid, zone) ∧
      envOk.createVolume zone sid = Except.ok { volume_id := some vid } ∧
      (load_ami_to_device envOk 5 "ami-1" "/dev/xvdg").2.filter isCreateCall =
        [Event.createVolume zone sid] ∧
      (load_ami_to_device envOk 5 "ami-1" "/dev/xvdg").2.filter isAttachCall =
        [Event.attachVolume "/dev/xvdg" vid iid] :=
  C9_identifier_propagation envOk 5 "ami-1" "/dev/xvdg" rfl

/-- C10: in every run, terminated or not, the only filesystem events in
the trace are existence checks on the requested device path — the
pipeline itself neither creates, removes, nor modifies any filesystem
entry. -/
theorem C10_filesystem_frame (env : Env) (fuel : Nat) (ami dp : String) :
    fsEventsOnlyCheck dp (load_ami_to_device env fuel ami dp).2 = true := by
  unfold fsEventsOnlyCheck
  by_cases h0 : env.fs 0
  · simp [load_ami_to_device, h0, touchesFsOnlyAt]
  · have h0' : env.fs 0 = false := by simpa using h0
    rcases hdi : env.describeImages ami with m | out
    · simp [load_ami_to_device, h0', hdi, touchesFsOnlyAt]
    · rcases hres : resolveSnapshotId out with _ | sid
      · simp [load_ami_to_device, h0', hdi, hres, touchesFsOnlyAt]
      · rcases hmp : get_ec2_instance_id_and_zone env.meta with ⟨mres, mtr⟩
        have hmtr : mtr.all (touchesFsOnlyAt dp) = true := by
          have hma := meta_all_fsOnly dp env.meta
          rw [hmp] at hma
          exact hma
        rcases mres with e | ⟨iid, zone⟩
        · simp [load_ami_to_device, h0', hdi, hres, hmp, touchesFsOnlyAt,
            List.all_append, hmtr]
        · rcases hcv : env.createVolume zone sid with m | cvo
          · simp [load_ami_to_device, h0', hdi, hres, hmp, hcv, touchesFsOnlyAt,
              List.all_append, hmtr]
          · rcases cvo with ⟨vid0⟩
            rcases vid0 with _ | vid
            · simp [load_ami_to_device, h0', hdi, hres, hmp, hcv, touchesFsOnlyAt,
                List.all_append, hmtr]
            · rcases hw : env.waitVolume vid MAX_WAIT_SECS with e | u
              · simp [load_ami_to_device, h0', hdi, hres, hmp, hcv, hw, touchesFsOnlyAt,
                  List.all_append, hmtr]
              · rcases u
                rcases ha : env.attachVolume dp vid iid with m | u
                · simp [load_ami_to_device, h0', hdi, hres, hmp, hcv, hw, ha,
                    touchesFsOnlyAt, List.all_append, hmtr]
                · rcases u
                  have hdw := deviceWait_all_fsOnly dp env.fs fuel 1
                  simp [load_ami_to_device, h0', hdi, hres, hmp, hcv, hw, ha,
                    touchesFsOnlyAt, List.all_append, hmtr, hdw]

end Vmi
